import Mathlib

/-!
Shallow embedding of the fastgltf asset parser (src/src/fastgltf.cpp).

JSON documents are modelled as an inductive `Json` value mirroring what the
simdjson DOM exposes to the parser: objects are association lists that keep
source order (simdjson's `object[key]` returns the first matching key),
numbers carry whether they were written as unsigned integers (so that
`get_uint64` succeeds exactly on non-negative integers below 2^64, while
`get_double` succeeds on any number).  Floating-point values never influence
control flow in the parser beyond parse success, so numeric payloads are kept
as the integers appearing in the concrete documents of the theorems below.

The document handle `glTF` becomes an explicit state record `GlTFState`; each
`parse*` member function becomes a function `GlTFState → Error × GlTFState`,
mirroring the C++ `returnError` convention of storing the error code on the
handle and returning it.
-/

set_option autoImplicit false

namespace Fastgltf

/-- A simdjson DOM value, as consumed by the parser. `isInt` is true for
numbers written as (non-negative) integer literals, on which `get_uint64`
can succeed; `get_double` succeeds on every number. -/
inductive Json where
  | jnull
  | jbool (b : Bool)
  | jnum (v : Int) (isInt : Bool)
  | jstr (s : String)
  | jarr (elems : List Json)
  | jobj (fields : List (String × Json))
deriving Repr

/-- The error enumeration of fastgltf (fastgltf.cpp uses every variant listed
in the spec's §7 table). -/
inductive Error where
  | None
  | InvalidPath
  | InvalidJson
  | InvalidGLB
  | InvalidGltf
  | InvalidOrMissingAssetField
  | MissingField
  | UnsupportedExtensions
  | MissingExtensions
deriving DecidableEq, Repr

/-- The three recognized extensions of the `extensionStrings` registry. -/
inductive ExtensionFlag where
  | KHR_texture_basisu
  | KHR_texture_transform
  | MSFT_texture_dds
deriving DecidableEq, Repr

/-- The caller's enabled-extension bit set (`fastgltf::Extensions`). -/
structure Extensions where
  KHR_texture_basisu : Bool
  KHR_texture_transform : Bool
  MSFT_texture_dds : Bool
deriving DecidableEq, Repr

/-- hasBit on the extension bit set. -/
def hasBit (e : Extensions) (f : ExtensionFlag) : Bool :=
  match f with
  | .KHR_texture_basisu => e.KHR_texture_basisu
  | .KHR_texture_transform => e.KHR_texture_transform
  | .MSFT_texture_dds => e.MSFT_texture_dds

/-- The caller-supplied option bits (`fastgltf::Options`). -/
structure Options where
  AllowDouble : Bool
  DontRequireValidAssetMember : Bool
  LoadGLBBuffers : Bool
  DontUseSIMD : Bool
deriving DecidableEq, Repr

/-- simdjson `value.get_uint64()`: succeeds exactly on numbers written as
non-negative integer literals that fit in an unsigned 64-bit word (the
bound is the literal 2^64). -/
def getUint64 : Json → Option Nat
  | .jnum v true => if 0 ≤ v ∧ v < 18446744073709551616 then some v.toNat else none
  | _ => none

/-- simdjson `value.get_double()`: succeeds on every number. -/
def getDouble : Json → Option Int
  | .jnum v _ => some v
  | _ => none

/-- simdjson `value.get_string()`. -/
def getString : Json → Option String
  | .jstr s => some s
  | _ => none

/-- simdjson `value.get_bool()`. -/
def getBool : Json → Option Bool
  | .jbool b => some b
  | _ => none

/-- simdjson `value.get_object()`. -/
def getObj : Json → Option (List (String × Json))
  | .jobj fs => some fs
  | _ => none

/-- Field access `object[key]` followed by a typed getter. -/
def field (fields : List (String × Json)) (key : String) : Option Json :=
  fields.lookup key

/-- Outcome of `fg::getJsonArray` (fastgltf.cpp:70-81): `NO_SUCH_FIELD`
becomes `MissingField`, success yields the array, and a present non-array
field becomes `InvalidGltf`. -/
inductive ArrayField where
  | missing
  | invalid
  | ok (elems : List Json)
deriving Repr

/-- fg::getJsonArray: fetch `parent[arrayName]` as an array. -/
def getJsonArray (parent : List (String × Json)) (arrayName : String) : ArrayField :=
  match field parent arrayName with
  | none => .missing
  | some (.jarr xs) => .ok xs
  | some _ => .invalid

/-- The static registry `extensionStrings` (fastgltf.cpp:155-159). -/
def extensionStrings : List (String × ExtensionFlag) :=
  [ ("KHR_texture_basisu", .KHR_texture_basisu)
  , ("KHR_texture_transform", .KHR_texture_transform)
  , ("MSFT_texture_dds", .MSFT_texture_dds) ]

/-- The registry scan inside `fg::glTF::checkExtensions` (fastgltf.cpp:175-186).
`known` latches once some registry name equals the required string; `listed`
latches once some registry entry's flag is enabled — the two latches are
updated independently of each other, exactly as in the source loop. -/
def knownListedScan (exts : Extensions) (s : String) :
    List (String × ExtensionFlag) → Bool → Bool → Bool × Bool
  | [], known, listed => (known, listed)
  | (extensionString, extensionEnum) :: rest, known, listed =>
    let known' := if known then known else decide (extensionString = s)
    let listed' := if listed then listed else hasBit exts extensionEnum
    if known' && listed' then (known', listed')
    else knownListedScan exts s rest known' listed'

/-- The per-entry loop of `checkExtensions` over the `extensionsRequired`
array (fastgltf.cpp:167-195). -/
def checkRequiredEntries (exts : Extensions) : List Json → Error
  | [] => .None
  | v :: rest =>
    match getString v with
    | none => .InvalidGltf
    | some s =>
      let (known, listed) := knownListedScan exts s extensionStrings false false
      if !known then .UnsupportedExtensions
      else if !listed then .MissingExtensions
      else checkRequiredEntries exts rest

/-- fg::glTF::checkExtensions (fastgltf.cpp:162-199): returns the error that
would be stored on the handle, `Error.None` on success.  When
`extensionsRequired` is absent or not an array the whole check is skipped. -/
def checkExtensions (root : List (String × Json)) (exts : Extensions) : Error :=
  match field root "extensionsRequired" with
  | some (.jarr xs) => checkRequiredEntries exts xs
  | _ => .None

/-- The data-location discriminator (`fastgltf::DataLocation`). -/
inductive DataLocation where
  | None
  | VectorWithMime
  | FilePathWithByteRange
  | BufferViewWithMime
deriving DecidableEq, Repr

/-- MimeType enumeration (`fastgltf::MimeType`). -/
inductive MimeType where
  | None
  | JPEG
  | PNG
  | KTX2
  | DDS
  | GltfBuffer
  | OctetStream
deriving DecidableEq, Repr

/-- fg::glTF::getMimeTypeFromString (fastgltf.cpp:240-256). -/
def getMimeTypeFromString (mime : String) : MimeType :=
  if mime = "image/jpeg" then .JPEG
  else if mime = "image/png" then .PNG
  else if mime = "image/ktx2" then .KTX2
  else if mime = "image/vnd-ms.dds" then .DDS
  else if mime = "application/gltf-buffer" then .GltfBuffer
  else if mime = "application/octet-stream" then .OctetStream
  else .None

/-- DataSource: parallel optional fields, zero-initialized by `DataSource {}`.
File paths are character lists (std::filesystem::path contents). -/
structure DataSource where
  bytes : List Nat := []
  path : List Char := []
  mimeType : MimeType := .None
  fileByteOffset : Nat := 0
  bufferViewIndex : Option Nat := none
deriving DecidableEq, Repr

/-- Modelled from the spec: the base64 alphabet value of a character
(base64_decode.hpp is not part of src/). -/
def base64Value (c : Char) : Option Nat :=
  if 'A' ≤ c ∧ c ≤ 'Z' then some (c.toNat - 'A'.toNat)
  else if 'a' ≤ c ∧ c ≤ 'z' then some (c.toNat - 'a'.toNat + 26)
  else if '0' ≤ c ∧ c ≤ '9' then some (c.toNat - '0'.toNat + 52)
  else if c = '+' then some 62
  else if c = '/' then some 63
  else none

/-- Modelled from the spec: decode one 4-character base64 block into up to
three bytes, honouring trailing '=' padding (§4.1). -/
def base64Block (a b c d : Char) : List Nat :=
  match base64Value a, base64Value b with
  | some va, some vb =>
    let b0 := va * 4 + vb / 16
    if c = '=' then [b0]
    else
      match base64Value c with
      | some vc =>
        let b1 := (vb % 16) * 16 + vc / 4
        if d = '=' then [b0, b1]
        else
          match base64Value d with
          | some vd => [b0, b1, (vc % 4) * 64 + vd]
          | none => []
      | none => []
  | _, _ => []

/-- Modelled from the spec: the base64 decoder `base64::decode`
(base64_decode.hpp is not part of src/); §4.1: input is consumed in blocks
of four characters, producing 3·⌊n/4⌋ bytes minus one per trailing '='. -/
def base64Decode : List Char → List Nat
  | a :: b :: c :: d :: rest => base64Block a b c d ++ base64Decode rest
  | _ => []

/-- Modelled from the spec: `base64::fallback_decode` has semantics identical
to the SIMD path (§4.1: both paths produce byte-identical output). -/
def base64FallbackDecode (s : List Char) : List Nat :=
  base64Decode s

/-- std::filesystem `directory / uri` for the relative URIs the parser
resolves: join with a path separator. -/
def pathJoin (directory uri : List Char) : List Char :=
  directory ++ '/' :: uri

/-- std::string_view::find of a character from position `start`, the first
index ≥ `start` holding `c`. -/
def charFind (c : Char) (uri : List Char) (start : Nat) : Option Nat :=
  match (uri.drop start).findIdx? (· == c) with
  | some i => some (start + i)
  | none => none

/-- fg::glTF::decodeUri (fastgltf.cpp:201-233).  The C++ computes both
`find(';')` and `find(',', index+1)` before testing either against npos; the
nested matches below return `InvalidGltf` in exactly the same cases. -/
def decodeUri (opts : Options) (directory uri : List Char) :
    Error × DataSource × DataLocation :=
  if uri.take 4 = ['d', 'a', 't', 'a'] then
    match charFind ';' uri 0 with
    | none => (.InvalidGltf, {}, .None)
    | some index =>
      match charFind ',' uri (index + 1) with
      | none => (.InvalidGltf, {}, .None)
      | some encodingEnd =>
        let encoding := (uri.drop (index + 1)).take (encodingEnd - index - 1)
        if encoding = "base64".data then
          let encodedData := uri.drop (encodingEnd + 1)
          let uriData :=
            if opts.DontUseSIMD then base64FallbackDecode encodedData
            else base64Decode encodedData
          let mime := getMimeTypeFromString (String.mk ((uri.drop 5).take (index - 5)))
          (.None, { mimeType := mime, bytes := uriData }, .VectorWithMime)
        else
          (.InvalidGltf, {}, .None)
  else
    (.None, { path := pathJoin directory uri }, .FilePathWithByteRange)

/-- Accessor component types (fastgltf_types.hpp is not in src/). -/
inductive ComponentType where
  | Byte
  | UnsignedByte
  | Short
  | UnsignedShort
  | UnsignedInt
  | Float
  | Double
  | Invalid
deriving DecidableEq, Repr

/-- Modelled from the spec: `getComponentType` of fastgltf_types.hpp, §3's
componentType codes (5120..5126, 5130); anything else is invalid. -/
def getComponentType (n : Nat) : ComponentType :=
  if n = 5120 then .Byte
  else if n = 5121 then .UnsignedByte
  else if n = 5122 then .Short
  else if n = 5123 then .UnsignedShort
  else if n = 5125 then .UnsignedInt
  else if n = 5126 then .Float
  else if n = 5130 then .Double
  else .Invalid

/-- Accessor element shapes (fastgltf_types.hpp is not in src/). -/
inductive AccessorType where
  | Scalar
  | Vec2
  | Vec3
  | Vec4
  | Mat2
  | Mat3
  | Mat4
  | Invalid
deriving DecidableEq, Repr

/-- Modelled from the spec: `getAccessorType` of fastgltf_types.hpp, §3's
type strings. -/
def getAccessorType (s : String) : AccessorType :=
  if s = "SCALAR" then .Scalar
  else if s = "VEC2" then .Vec2
  else if s = "VEC3" then .Vec3
  else if s = "VEC4" then .Vec4
  else if s = "MAT2" then .Mat2
  else if s = "MAT3" then .Mat3
  else if s = "MAT4" then .Mat4
  else .Invalid

/-- Parsed accessor (fastgltf_types.hpp per spec §3). -/
structure Accessor where
  componentType : ComponentType := .Invalid
  type : AccessorType := .Invalid
  count : Nat := 0
  byteOffset : Nat := 0
  normalized : Bool := false
  bufferViewIndex : Option Nat := none
  name : Option String := none
deriving DecidableEq, Repr

/-- Parsed buffer (fastgltf_types.hpp per spec §3). -/
structure Buffer where
  byteLength : Nat := 0
  data : DataSource := {}
  location : DataLocation := .None
  name : Option String := none
deriving DecidableEq, Repr

/-- Parsed node (fastgltf_types.hpp per spec §3).  The fixed-size float
arrays are integer lists (float values never influence parser control flow);
`Node node = {}` zero-initializes every slot. -/
structure Node where
  meshIndex : Option Nat := none
  children : List Nat := []
  hasMatrix : Bool := false
  matrix : List Int := List.replicate 16 0
  scale : List Int := List.replicate 3 0
  translation : List Int := List.replicate 3 0
  rotation : List Int := List.replicate 4 0
  name : Option String := none
deriving DecidableEq, Repr

/-- Parsed scene (fastgltf_types.hpp per spec §3). -/
structure Scene where
  nodeIndices : List Nat := []
  name : Option String := none
deriving DecidableEq, Repr

/-- The sentinel `std::numeric_limits of size_t ::max()` used by the texture
resolution to mean "no source defined" (the literal 2^64 - 1). -/
def maxSizeT : Nat := 18446744073709551615

/-- Parsed texture (fastgltf_types.hpp per spec §3). -/
structure Texture where
  imageIndex : Nat := 0
  fallbackImageIndex : Option Nat := none
  samplerIndex : Option Nat := none
  name : Option String := none
deriving DecidableEq, Repr

/-- Parsed TextureInfo (fastgltf_types.hpp per spec §3); callers zero- or
default-initialize it before handing it to `parseTextureObject`. -/
structure TextureInfo where
  textureIndex : Nat := 0
  texCoordIndex : Nat := 0
  scale : Int := 1
  rotation : Int := 0
  uvOffset : List Int := [0, 0]
  uvScale : List Int := [1, 1]
deriving DecidableEq, Repr

/-- The asset aggregate, restricted to the entity arrays the claims touch. -/
structure Asset where
  accessors : List Accessor := []
  buffers : List Buffer := []
  nodes : List Node := []
  scenes : List Scene := []
  textures : List Texture := []
  defaultScene : Option Nat := none
deriving DecidableEq, Repr

/-- The BIN-chunk record held by a GLB-constructed handle
(`fastgltf::GLBBuffer`): either the eagerly loaded bytes (`buffer`) or the
lazy `(file, fileOffset, fileSize)` triple. -/
structure GLBBuffer where
  file : List Char := []
  fileOffset : Nat := 0
  fileSize : Nat := 0
  buffer : List Nat := []
deriving DecidableEq, Repr

/-- The document handle `fg::glTF` as explicit state: DOM root object, base
directory, options, enabled extensions, the sticky error code, the owned
asset (`none` once moved out by `getParsedAsset`), and the optional GLB BIN
record (`some` exactly when the GLB framer saw a BIN chunk). -/
structure GlTFState where
  root : List (String × Json)
  directory : List Char := []
  options : Options
  extensions : Extensions
  errorCode : Error := .None
  parsedAsset : Option Asset := some {}
  glb : Option GLBBuffer := none

/-- fg::glTF::returnError (fastgltf.cpp:235-238): store the error on the
handle and return it. -/
def returnErr (g : GlTFState) (e : Error) : Error × GlTFState :=
  (e, { g with errorCode := e })

/-- Apply an update to the owned asset (the C++ dereferences `parsedAsset`;
after the asset was moved out this would be undefined behaviour, which no
claim exercises). -/
def mapAsset (g : GlTFState) (f : Asset → Asset) : GlTFState :=
  { g with parsedAsset := g.parsedAsset.map f }

/-- fg::glTF::getParsedAsset (fastgltf.cpp:258-264): `nullptr` on any stored
error, otherwise `std::move(parsedAsset)` — the handle's pointer is left
null, so a second call yields nothing. -/
def getParsedAsset (g : GlTFState) : Option Asset × GlTFState :=
  if g.errorCode ≠ Error.None then (none, g)
  else (g.parsedAsset, { g with parsedAsset := none })

/-- Read a JSON array of u64 indices (the element loops of `children` in
parseNodes and `nodes` in parseScenes); any non-u64 element fails. -/
def readIndexList : List Json → Option (List Nat)
  | [] => some []
  | x :: rest =>
    match getUint64 x with
    | none => none
    | some i => (readIndexList rest).map (i :: ·)

/-- The shared shape of the per-element loops of the object parsers: elements
are parsed and appended in source order until the first error; elements
appended before the error remain appended (the C++ `emplace_back`s as it
goes and returns mid-loop). -/
def parseLoop {α : Type} (p : Json → Except Error α) : List Json → List α × Option Error
  | [] => ([], none)
  | v :: rest =>
    match p v with
    | .error e => ([], some e)
    | .ok x =>
      let (xs, e) := parseLoop p rest
      (x :: xs, e)

/-- One accessor of fg::glTF::parseAccessors (fastgltf.cpp:284-333). -/
def parseAccessor (opts : Options) (v : Json) : Except Error Accessor :=
  match getObj v with
  | none => .error .InvalidGltf
  | some accessorObject =>
    match (field accessorObject "componentType").bind getUint64 with
    | none => .error .InvalidGltf
    | some componentType =>
      let ct := getComponentType componentType
      if ct = ComponentType.Double ∧ ¬opts.AllowDouble then .error .InvalidGltf
      else
        match (field accessorObject "type").bind getString with
        | none => .error .InvalidGltf
        | some accessorType =>
          match (field accessorObject "count").bind getUint64 with
          | none => .error .InvalidGltf
          | some count =>
            .ok { componentType := ct
                , type := getAccessorType accessorType
                , count := count
                , bufferViewIndex := (field accessorObject "bufferView").bind getUint64
                , byteOffset := ((field accessorObject "byteOffset").bind getUint64).getD 0
                , normalized := ((field accessorObject "normalized").bind getBool).getD false
                , name := (field accessorObject "name").bind getString }

/-- The shared tail of every object-array parser: append the elements parsed
before any error, then either store the loop's error on the handle
(`returnError`) or return the previously stored `errorCode`, exactly as the
C++ `return errorCode;` at the end of each parser. -/
def finishArrayParse {α : Type} (g : GlTFState) (r : List α × Option Error)
    (upd : Asset → List α → Asset) : Error × GlTFState :=
  let g := mapAsset g (fun a => upd a r.1)
  match r.2 with
  | some err => returnErr g err
  | none => (g.errorCode, g)

/-- fg::glTF::parseAccessors (fastgltf.cpp:273-337).  An absent `accessors`
array is success without touching the handle; a successful run returns the
previously stored `errorCode`, exactly as the C++ `return errorCode;`. -/
def parseAccessors (g : GlTFState) : Error × GlTFState :=
  match getJsonArray g.root "accessors" with
  | .missing => (.None, g)
  | .invalid => returnErr g .InvalidGltf
  | .ok accessors =>
    finishArrayParse g (parseLoop (parseAccessor g.options) accessors)
      (fun a xs => { a with accessors := a.accessors ++ xs })

/-- The common tail of one parseBuffers element (fastgltf.cpp:390-397): the
defensive `location == None` check and the optional `name`. -/
def finishBuffer (bufferObject : List (String × Json)) (buffer : Buffer) :
    Except Error Buffer :=
  if buffer.location = DataLocation.None then .error .InvalidGltf
  else .ok { buffer with name := (field bufferObject "name").bind getString }

/-- One buffer of fg::glTF::parseBuffers (fastgltf.cpp:351-402): a missing
`uri` is tolerated only for buffer index 0 of a handle whose GLB framer saw
a BIN chunk (`glb` non-null); `LoadGLBBuffers` picks the eagerly loaded
bytes, otherwise the lazy `(file, offset)` record is stored. -/
def parseBuffer (opts : Options) (directory : List Char) (glb : Option GLBBuffer)
    (bufferIndex : Nat) (v : Json) : Except Error Buffer :=
  match getObj v with
  | none => .error .InvalidGltf
  | some bufferObject =>
    match (field bufferObject "byteLength").bind getUint64 with
    | none => .error .InvalidGltf
    | some byteLength =>
      match (field bufferObject "uri").bind getString with
      | some uri =>
        let (error, source, location) := decodeUri opts directory uri.data
        if error ≠ Error.None then .error error
        else finishBuffer bufferObject
          { byteLength := byteLength, data := source, location := location }
      | none =>
        match glb with
        | some gb =>
          if bufferIndex = 0 then
            if opts.LoadGLBBuffers then
              finishBuffer bufferObject
                { byteLength := byteLength
                , data := { bytes := gb.buffer }
                , location := .VectorWithMime }
            else
              finishBuffer bufferObject
                { byteLength := byteLength
                , data := { path := gb.file, mimeType := .GltfBuffer
                          , fileByteOffset := gb.fileOffset }
                , location := .FilePathWithByteRange }
          else .error .InvalidGltf
        | none => .error .InvalidGltf

/-- The indexed element loop of parseBuffers (`bufferIndex` counts appended
buffers, fastgltf.cpp:350,400). -/
def buffersLoop (opts : Options) (directory : List Char) (glb : Option GLBBuffer) :
    List Json → Nat → List Buffer × Option Error
  | [], _ => ([], none)
  | v :: rest, bufferIndex =>
    match parseBuffer opts directory glb bufferIndex v with
    | .error e => ([], some e)
    | .ok b =>
      let (xs, e) := buffersLoop opts directory glb rest (bufferIndex + 1)
      (b :: xs, e)

/-- fg::glTF::parseBuffers (fastgltf.cpp:339-405). -/
def parseBuffers (g : GlTFState) : Error × GlTFState :=
  match getJsonArray g.root "buffers" with
  | .missing => (.None, g)
  | .invalid => returnErr g .InvalidGltf
  | .ok buffers =>
    finishArrayParse g (buffersLoop g.options g.directory g.glb buffers 0)
      (fun a xs => { a with buffers := a.buffers ++ xs })

/-- The element loops over `matrix` (and the TRS arrays) in parseNodes:
write each parsed number into the next slot; a non-number stops the loop,
keeping the partially filled slots, and reports failure.  Writes beyond the
slot count are dropped (out-of-bounds in the C++). -/
def fillSlots : List Json → List Int → Nat → List Int × Bool
  | [], m, _ => (m, true)
  | x :: rest, m, i =>
    match getDouble x with
    | none => (m, false)
    | some v => fillSlots rest (m.set i v) (i + 1)

/-- The identity matrix parseNodes assigns when `matrix` is absent
(fastgltf.cpp:790-795). -/
def identity16 : List Int :=
  [1, 0, 0, 0, 0, 1, 0, 0, 0, 0, 1, 0, 0, 0, 0, 1]

/-- A TRS array of parseNodes (`scale`, `translation`, `rotation`): if the
field is present as an array, every element must be a number (else the
caller fails with `InvalidGltf`, modelled by `none`); otherwise the
documented default applies. -/
def readTrs (nodeObject : List (String × Json)) (key : String) (cur dflt : List Int) :
    Option (List Int) :=
  match field nodeObject key with
  | some (.jarr xs) =>
    let (s, ok) := fillSlots xs cur 0
    if ok then some s else none
  | _ => some dflt

/-- One node of fg::glTF::parseNodes (fastgltf.cpp:745-853).  Note the
`children` handling (lines 757-772): the branch structure is
`if (childError == None) {…} else if (childError != None) return
returnError(childError);`, so an absent `children` field falls into the
second branch and fails with the internal `MissingField` error. -/
def parseNode (v : Json) : Except Error Node :=
  match getObj v with
  | none => .error .InvalidGltf
  | some nodeObject =>
    let node : Node := {}
    let node :=
      match (field nodeObject "mesh").bind getUint64 with
      | some m => { node with meshIndex := some m }
      | none => node
    match getJsonArray nodeObject "children" with
    | .missing => .error .MissingField
    | .invalid => .error .InvalidGltf
    | .ok childValues =>
      match readIndexList childValues with
      | none => .error .InvalidGltf
      | some idxs =>
        let node := { node with children := idxs }
        let node :=
          match field nodeObject "matrix" with
          | some (.jarr xs) =>
            let (m, ok) := fillSlots xs node.matrix 0
            { node with hasMatrix := ok, matrix := m }
          | _ => { node with matrix := identity16 }
        match readTrs nodeObject "scale" node.scale [1, 1, 1] with
        | none => .error .InvalidGltf
        | some s =>
          match readTrs nodeObject "translation" node.translation [0, 0, 0] with
          | none => .error .InvalidGltf
          | some t =>
            match readTrs nodeObject "rotation" node.rotation [0, 0, 0, 1] with
            | none => .error .InvalidGltf
            | some r =>
              .ok { node with
                    scale := s, translation := t, rotation := r,
                    name := (field nodeObject "name").bind getString }

/-- fg::glTF::parseNodes (fastgltf.cpp:734-856). -/
def parseNodes (g : GlTFState) : Error × GlTFState :=
  match getJsonArray g.root "nodes" with
  | .missing => (.None, g)
  | .invalid => returnErr g .InvalidGltf
  | .ok nodes =>
    finishArrayParse g (parseLoop parseNode nodes)
      (fun a xs => { a with nodes := a.nodes ++ xs })

/-- One scene of fg::glTF::parseScenes (fastgltf.cpp:874-906).  As with the
node children, the branch structure at lines 891-905 sends an absent
`nodes` field into `returnError(MissingField)` rather than skipping the
scene. -/
def parseScene (v : Json) : Except Error Scene :=
  match getObj v with
  | none => .error .InvalidGltf
  | some sceneObject =>
    let scene : Scene := { name := (field sceneObject "name").bind getString }
    match getJsonArray sceneObject "nodes" with
    | .missing => .error .MissingField
    | .invalid => .error .InvalidGltf
    | .ok nodeValues =>
      match readIndexList nodeValues with
      | none => .error .InvalidGltf
      | some idxs => .ok { scene with nodeIndices := idxs }

/-- fg::glTF::parseScenes (fastgltf.cpp:858-909): an absent `scenes` array
returns success before the top-level `scene` field is ever read; when the
array is present, `scene` is read into `defaultScene` first and the scene
loop runs afterwards. -/
def parseScenes (g : GlTFState) : Error × GlTFState :=
  match getJsonArray g.root "scenes" with
  | .missing => (.None, g)
  | .invalid => returnErr g .InvalidGltf
  | .ok scenes =>
    let g :=
      match (field g.root "scene").bind getUint64 with
      | some defaultScene => mapAsset g (fun a => { a with defaultScene := some defaultScene })
      | none => g
    finishArrayParse g (parseLoop parseScene scenes)
      (fun a xs => { a with scenes := a.scenes ++ xs })

/-- fg::getImageIndexForExtension (fastgltf.cpp:51-68).  The tuple mirrors
the C++ `(invalidGltf, extensionNotPresent, imageIndex)`: not an object →
`(false, true, 0)`; object without a u64 `source` → `(true, false, 0)`;
otherwise `(false, false, source)`. -/
def getImageIndexForExtension (object : List (String × Json)) (extension : String) :
    Bool × Bool × Nat :=
  match (field object extension).bind getObj with
  | none => (false, true, 0)
  | some sourceExtensionObject =>
    match (field sourceExtensionObject "source").bind getUint64 with
    | none => (true, false, 0)
    | some imageIndex => (false, false, imageIndex)

/-- fg::parseTextureExtensions (fastgltf.cpp:83-109): try
`KHR_texture_basisu` first, then `MSFT_texture_dds`, each only when its flag
is enabled; `some i` models the C++ returning true with
`texture.imageIndex = i`, `none` the C++ returning false (a present but
malformed extension object also returns false immediately). -/
def parseTextureExtensions (extensions : List (String × Json)) (extensionFlags : Extensions) :
    Option Nat :=
  let ddsStep : Option Nat :=
    if hasBit extensionFlags .MSFT_texture_dds then
      let (invalidGltf, extensionNotPresent, imageIndex) :=
        getImageIndexForExtension extensions "MSFT_texture_dds"
      if invalidGltf then none
      else if !extensionNotPresent then some imageIndex
      else none
    else none
  if hasBit extensionFlags .KHR_texture_basisu then
    let (invalidGltf, extensionNotPresent, imageIndex) :=
      getImageIndexForExtension extensions "KHR_texture_basisu"
    if invalidGltf then none
    else if !extensionNotPresent then some imageIndex
    else ddsStep
  else ddsStep

/-- The trailing optional fields of one texture (`sampler`, `name`,
fastgltf.cpp:1029-1038). -/
def finishTexture (textureObject : List (String × Json)) (texture : Texture) :
    Except Error Texture :=
  .ok { texture with
        samplerIndex := (field textureObject "sampler").bind getUint64,
        name := (field textureObject "name").bind getString }

/-- One texture of fg::glTF::parseTextures (fastgltf.cpp:994-1040).
`imageIndex` is preset to the max-u64 sentinel and overwritten only when
`source` reads as a u64; with no `extensions` object a failed `source` read
is `InvalidGltf`; with one, a non-sentinel `imageIndex` is demoted to
`fallbackImageIndex` and the extension resolution must supply the image. -/
def parseTexture (exts : Extensions) (v : Json) : Except Error Texture :=
  match getObj v with
  | none => .error .InvalidGltf
  | some textureObject =>
    let sourceRead := (field textureObject "source").bind getUint64
    let imageIndex := sourceRead.getD maxSizeT
    match (field textureObject "extensions").bind getObj with
    | none =>
      if sourceRead = none then .error .InvalidGltf
      else finishTexture textureObject { imageIndex := imageIndex }
    | some extensionsObject =>
      let texture : Texture := { imageIndex := imageIndex }
      let texture :=
        if imageIndex ≠ maxSizeT then { texture with fallbackImageIndex := some imageIndex }
        else texture
      match parseTextureExtensions extensionsObject exts with
      | none => .error .InvalidGltf
      | some extIndex => finishTexture textureObject { texture with imageIndex := extIndex }

/-- fg::glTF::parseTextures (fastgltf.cpp:983-1044). -/
def parseTextures (g : GlTFState) : Error × GlTFState :=
  match getJsonArray g.root "textures" with
  | .missing => (.None, g)
  | .invalid => returnErr g .InvalidGltf
  | .ok textures =>
    finishArrayParse g (parseLoop (parseTexture g.extensions) textures)
      (fun a xs => { a with textures := a.textures ++ xs })

/-- The two-element float loops over the transform's `offset` and `scale`
arrays (fastgltf.cpp:958-976): `array.at(i)` for i = 0, 1 must exist and be
a number; a slot already written stays written when the next one fails. -/
def fillFloatPair (arr : List Json) (cur : List Int) : List Int × Bool :=
  match (arr.get? 0).bind getDouble with
  | none => (cur, false)
  | some v0 =>
    let cur := cur.set 0 v0
    match (arr.get? 1).bind getDouble with
    | none => (cur, false)
    | some v1 => (cur.set 1 v1, true)

/-- The `scale` half of the KHR_texture_transform block
(fastgltf.cpp:968-976); a present non-array `scale` is skipped silently. -/
def texObjScalePart (textureTransform : List (String × Json)) (info : TextureInfo) :
    Error × TextureInfo :=
  match field textureTransform "scale" with
  | some (.jarr xs) =>
    let (s, ok) := fillFloatPair xs info.uvScale
    let info := { info with uvScale := s }
    if ok then (.None, info) else (.InvalidGltf, info)
  | _ => (.None, info)

/-- fg::glTF::parseTextureObject (fastgltf.cpp:911-981).  An absent (or
non-object) field is success with the info unchanged; `index` is required;
the outer `texCoord` defaults to 0 and the outer `scale` to 1.  With
`KHR_texture_transform` disabled the transform fields are reset to their
defaults.  With it enabled, a `texCoord` inside the transform object
overrides the outer one only when it reads as a u64 (a malformed one is
ignored), `rotation` falls back to 0 on any read failure, and only `offset`
or `scale` entries that are present as arrays are validated. -/
def parseTextureObject (exts : Extensions) (obj : List (String × Json)) (key : String)
    (info : TextureInfo) : Error × TextureInfo :=
  match (field obj key).bind getObj with
  | none => (.None, info)
  | some child =>
    match (field child "index").bind getUint64 with
    | none => (.InvalidGltf, info)
    | some index =>
      let info := { info with textureIndex := index }
      let info := { info with texCoordIndex := ((field child "texCoord").bind getUint64).getD 0 }
      let info := { info with scale := ((field child "scale").bind getDouble).getD 1 }
      if ¬ hasBit exts .KHR_texture_transform then
        (.None, { info with rotation := 0, uvOffset := [0, 0], uvScale := [1, 1] })
      else
        match (field child "extensions").bind getObj with
        | none => (.None, info)
        | some extensionsObject =>
          match (field extensionsObject "KHR_texture_transform").bind getObj with
          | none => (.None, info)
          | some textureTransform =>
            let info :=
              match (field textureTransform "texCoord").bind getUint64 with
              | some t => { info with texCoordIndex := t }
              | none => info
            let info :=
              { info with rotation := ((field textureTransform "rotation").bind getDouble).getD 0 }
            match field textureTransform "offset" with
            | some (.jarr xs) =>
              let (o, ok) := fillFloatPair xs info.uvOffset
              let info := { info with uvOffset := o }
              if ok then texObjScalePart textureTransform info
              else (.InvalidGltf, info)
            | _ => texObjScalePart textureTransform info

/-- A fresh document handle over a parsed DOM root, as constructed by the
parser façade: no stored error, an empty owned asset, and the optional GLB
BIN record. -/
def mkState (root : List (String × Json)) (exts : Extensions) (opts : Options)
    (glb : Option GLBBuffer) : GlTFState :=
  { root := root, options := opts, extensions := exts, glb := glb }

/-- The option set with no flag enabled. -/
def noOptions : Options := ⟨false, false, false, false⟩

/-- The extension set with no flag enabled. -/
def noExtensions : Extensions := ⟨false, false, false⟩

/-- C1: the required check fires only when no registry flag at all is
enabled — the concrete document requiring `KHR_texture_basisu` used by the
theorem below. -/
def basisuRequiredRoot : List (String × Json) :=
  [("extensionsRequired", .jarr [.jstr "KHR_texture_basisu"])]

/-- C1: for a document requiring `KHR_texture_basisu` with that flag not
enabled, `checkExtensions` passes as soon as some other registry flag
(here `MSFT_texture_dds`) is enabled, because the `known` and `listed`
latches of the registry scan are updated independently; with no registry
flag enabled the same document does fail with `MissingExtensions`.  The
first conjunct exhibits the divergence from the claim, the second shows the
intended error is produced exactly when no other flag masks it. -/
theorem checkExtensions_other_flag_masks_missing :
    checkExtensions basisuRequiredRoot ⟨false, false, true⟩ = Error.None ∧
    checkExtensions basisuRequiredRoot noExtensions = Error.MissingExtensions := by
  constructor <;> rfl

/-- C2: the concrete document whose single node has no `children` field. -/
def childlessNodeRoot : List (String × Json) :=
  [("nodes", .jarr [.jobj []])]

/-- C2: on a node with no `children` field, parseNodes does not emit the
node with empty children — it records the internal `MissingField` error on
the handle, appends nothing, and the subsequent `getParsedAsset` returns
nothing. -/
theorem parseNodes_childless_node_fails :
    (parseNodes (mkState childlessNodeRoot noExtensions noOptions none)).1
        = Error.MissingField ∧
    (parseNodes (mkState childlessNodeRoot noExtensions noOptions none)).2.errorCode
        = Error.MissingField ∧
    (parseNodes (mkState childlessNodeRoot noExtensions noOptions none)).2.parsedAsset
        = some ({} : Asset) ∧
    (getParsedAsset (parseNodes (mkState childlessNodeRoot noExtensions noOptions none)).2).1
        = none := by
  refine ⟨rfl, rfl, rfl, rfl⟩

/-- C3: the concrete document whose single scene has no `nodes` field. -/
def nodelessSceneRoot : List (String × Json) :=
  [("scenes", .jarr [.jobj []])]

/-- C3: a scene lacking a `nodes` field is not silently dropped —
parseScenes stores the internal `MissingField` error on the handle and
returns it, and the subsequent `getParsedAsset` returns nothing, so the
error does escape to the caller. -/
theorem parseScenes_nodeless_scene_fails :
    (parseScenes (mkState nodelessSceneRoot noExtensions noOptions none)).1
        = Error.MissingField ∧
    (parseScenes (mkState nodelessSceneRoot noExtensions noOptions none)).2.errorCode
        = Error.MissingField ∧
    (parseScenes (mkState nodelessSceneRoot noExtensions noOptions none)).2.parsedAsset
        = some ({} : Asset) ∧
    (getParsedAsset (parseScenes (mkState nodelessSceneRoot noExtensions noOptions none)).2).1
        = none := by
  refine ⟨rfl, rfl, rfl, rfl⟩

/-- C9: when the top-level `scenes` array is absent, parseScenes returns
success immediately, leaving the whole handle — in particular the asset's
`defaultScene` — untouched, no matter what the rest of the document (e.g. a
top-level `scene` index) contains. -/
theorem parseScenes_absent_array_is_noop (g : GlTFState)
    (h : field g.root "scenes" = none) : parseScenes g = (Error.None, g) := by
  unfold parseScenes getJsonArray
  rw [h]

/-- C9 witness: a document with a `scene` index but no `scenes` array;
parseScenes succeeds without consuming the index and `defaultScene` stays
unset. -/
theorem parseScenes_absent_array_is_noop_witness :
    field ([("scene", Json.jnum 0 true)]) "scenes" = none ∧
    parseScenes (mkState [("scene", .jnum 0 true)] noExtensions noOptions none)
      = (Error.None, mkState [("scene", .jnum 0 true)] noExtensions noOptions none) ∧
    (mkState [("scene", .jnum 0 true)] noExtensions noOptions none).parsedAsset
      = some ({} : Asset) :=
  ⟨rfl, parseScenes_absent_array_is_noop _ rfl, rfl⟩

/-- C10: getParsedAsset is one-shot — on an error-free handle the first
call moves the asset out, the error code stays `None`, and every further
call returns nothing. -/
theorem getParsedAsset_one_shot (g : GlTFState) (a : Asset)
    (he : g.errorCode = Error.None) (ha : g.parsedAsset = some a) :
    (getParsedAsset g).1 = some a ∧
    (getParsedAsset g).2.errorCode = Error.None ∧
    (getParsedAsset (getParsedAsset g).2).1 = none := by
  simp [getParsedAsset, he, ha]

/-- C10 witness: the fresh empty handle. -/
theorem getParsedAsset_one_shot_witness :
    (mkState [] noExtensions noOptions none).errorCode = Error.None ∧
    (mkState [] noExtensions noOptions none).parsedAsset = some ({} : Asset) ∧
    ((getParsedAsset (mkState [] noExtensions noOptions none)).1 = some ({} : Asset) ∧
     (getParsedAsset (mkState [] noExtensions noOptions none)).2.errorCode = Error.None ∧
     (getParsedAsset (getParsedAsset (mkState [] noExtensions noOptions none)).2).1 = none) :=
  ⟨rfl, rfl, getParsedAsset_one_shot _ _ rfl rfl⟩

/-- C8: decodeUri.  For a URI whose first four characters are `data`: a
missing `;`, a missing `,` after it, or a segment between them differing
from the exact string `base64` all yield `InvalidGltf` with an empty data
source.  For any URI not beginning with `data`, the result is success with
the path equal to the base directory joined with the URI and location
`FilePathWithByteRange`; the embedding is a pure function of the URI, so no
file is touched. -/
theorem decodeUri_encoding_gate_and_relative (opts : Options) (directory uri : List Char) :
    (uri.take 4 = ['d', 'a', 't', 'a'] →
      (charFind ';' uri 0 = none →
        decodeUri opts directory uri = (.InvalidGltf, {}, .None)) ∧
      (∀ i, charFind ';' uri 0 = some i →
        (charFind ',' uri (i + 1) = none →
          decodeUri opts directory uri = (.InvalidGltf, {}, .None)) ∧
        (∀ j, charFind ',' uri (i + 1) = some j →
          (uri.drop (i + 1)).take (j - i - 1) ≠ "base64".data →
          decodeUri opts directory uri = (.InvalidGltf, {}, .None)))) ∧
    (uri.take 4 ≠ ['d', 'a', 't', 'a'] →
      decodeUri opts directory uri
        = (.None, { path := pathJoin directory uri }, .FilePathWithByteRange)) := by
  refine ⟨fun hdata => ⟨fun hsemi => ?_, fun i hi => ⟨fun hcomma => ?_, fun j hj henc => ?_⟩⟩,
    fun hnot => ?_⟩
  · simp [decodeUri, hdata, hsemi]
  · simp [decodeUri, hdata, hi, hcomma]
  · simp [decodeUri, hdata, hi, hj, henc]
  · simp [decodeUri, hnot]

/-- C8 witness: a data URI with encoding `base91` is rejected, and the plain
relative URI `bin.bin` resolves to `dir/bin.bin` without I/O. -/
theorem decodeUri_encoding_gate_and_relative_witness :
    decodeUri noOptions "dir".data "data:application/octet-stream;base91,AQID".data
      = (.InvalidGltf, {}, .None) ∧
    decodeUri noOptions "dir".data "bin.bin".data
      = (.None, { path := pathJoin "dir".data "bin.bin".data }, .FilePathWithByteRange) :=
  ⟨(((decodeUri_encoding_gate_and_relative noOptions "dir".data
        "data:application/octet-stream;base91,AQID".data).1 (by decide)).2 29 (by decide)).2
      36 (by decide) (by decide),
   (decodeUri_encoding_gate_and_relative noOptions "dir".data "bin.bin".data).2 (by decide)⟩

/-- C7: parseBuffers and the GLB BIN chunk.  Quantified over an arbitrary
BIN record `gb` (`glb = some gb` holds exactly when the GLB framer saw a BIN
chunk; with `LoadGLBBuffers` disabled the framer stored only the file path
and chunk offset, never the chunk bytes).  (a) a buffer without `uri` at
index 0 of such a handle is accepted and records the GLB file path and BIN
byte offset with location `FilePathWithByteRange` and no bytes;
(b) without a BIN record the same buffer is `InvalidGltf`; (c) a uri-less
buffer at index 1 is `InvalidGltf` even with a BIN record; (d) when `uri`
is present on buffer 0 of a GLB handle, the URI is resolved and the BIN
record is ignored. -/
theorem parseBuffers_glb_rules (gb : GLBBuffer) :
    ((parseBuffers (mkState [("buffers", .jarr [.jobj [("byteLength", .jnum 24 true)]])]
        noExtensions noOptions (some gb))).1 = Error.None ∧
     (parseBuffers (mkState [("buffers", .jarr [.jobj [("byteLength", .jnum 24 true)]])]
        noExtensions noOptions (some gb))).2.parsedAsset
       = some { buffers := [{ byteLength := 24,
                              data := { path := gb.file, mimeType := .GltfBuffer,
                                        fileByteOffset := gb.fileOffset },
                              location := .FilePathWithByteRange }] }) ∧
    (parseBuffers (mkState [("buffers", .jarr [.jobj [("byteLength", .jnum 24 true)]])]
        noExtensions noOptions none)).1 = Error.InvalidGltf ∧
    (parseBuffers (mkState [("buffers", .jarr
        [.jobj [("byteLength", .jnum 24 true), ("uri", .jstr "a.bin")],
         .jobj [("byteLength", .jnum 24 true)]])]
        noExtensions noOptions (some gb))).1 = Error.InvalidGltf ∧
    (parseBuffers (mkState [("buffers", .jarr
        [.jobj [("byteLength", .jnum 24 true), ("uri", .jstr "bin.bin")]])]
        noExtensions noOptions (some gb))).2.parsedAsset
      = some { buffers := [{ byteLength := 24,
                             data := { path := pathJoin [] "bin.bin".data },
                             location := .FilePathWithByteRange }] } := by
  refine ⟨⟨rfl, rfl⟩, rfl, rfl, rfl⟩

/-- C7 witness: the lazy BIN record of the spec's scenario 3
(`scene.glb`, BIN payload at byte offset 56, length 24). -/
theorem parseBuffers_glb_rules_witness :
    (parseBuffers (mkState [("buffers", .jarr [.jobj [("byteLength", .jnum 24 true)]])]
        noExtensions noOptions
        (some { file := "scene.glb".data, fileOffset := 56, fileSize := 24 }))).2.parsedAsset
      = some { buffers := [{ byteLength := 24,
                             data := { path := "scene.glb".data, mimeType := .GltfBuffer,
                                       fileByteOffset := 56 },
                             location := .FilePathWithByteRange }] } :=
  (parseBuffers_glb_rules { file := "scene.glb".data, fileOffset := 56, fileSize := 24 }).1.2

/-- get_uint64 succeeds on any natural-number literal below 2^64. -/
theorem getUint64_nat (s : Nat) (h : s < 2 ^ 64) :
    getUint64 (.jnum (s : Int) true) = some s := by
  have h' : s < 18446744073709551616 := by omega
  have hs : (s : Int) < 18446744073709551616 := by exact_mod_cast h'
  simp [getUint64, hs]

/-- C5: the texture source/extension state machine, on singleton texture
arrays with `KHR_texture_basisu` and `MSFT_texture_dds` enabled.  `js` is
any JSON value that reads as the u64 `s` (the base `source`), `je` reads as
`e` (the basisu source) and `jd` is arbitrary.  (1) base `source` plus
extension objects for both extensions: the basisu source (tried first)
becomes `imageIndex` — the dds entry is never read — and the base source is
demoted to `fallbackImageIndex`; (2) only the base `source`: it becomes
`imageIndex`; (3) neither a `source` nor an `extensions` object, and (4) an
`extensions` object in which no recognized extension supplies a source:
parseTextures fails with `InvalidGltf`.  (`s ≠ maxSizeT` excludes the
sentinel value that the parser reserves for "no source defined".) -/
theorem parseTextures_state_machine (js je jd : Json) (s e : Nat)
    (hjs : getUint64 js = some s) (hje : getUint64 je = some e) (hs : s ≠ maxSizeT) :
    ((parseTextures (mkState [("textures", .jarr [.jobj
        [("source", js),
         ("extensions", .jobj
           [("KHR_texture_basisu", .jobj [("source", je)]),
            ("MSFT_texture_dds", jd)])]])]
        ⟨true, false, true⟩ noOptions none)).1 = Error.None ∧
     (parseTextures (mkState [("textures", .jarr [.jobj
        [("source", js),
         ("extensions", .jobj
           [("KHR_texture_basisu", .jobj [("source", je)]),
            ("MSFT_texture_dds", jd)])]])]
        ⟨true, false, true⟩ noOptions none)).2.parsedAsset
       = some { textures := [{ imageIndex := e, fallbackImageIndex := some s }] }) ∧
    (parseTextures (mkState [("textures", .jarr [.jobj [("source", js)]])]
        ⟨true, false, true⟩ noOptions none)).2.parsedAsset
      = some { textures := [{ imageIndex := s }] } ∧
    (parseTextures (mkState [("textures", .jarr [.jobj []])]
        ⟨true, false, true⟩ noOptions none)).1 = Error.InvalidGltf ∧
    (parseTextures (mkState [("textures", .jarr [.jobj [("extensions", .jobj [])]])]
        ⟨true, false, true⟩ noOptions none)).1 = Error.InvalidGltf := by
  refine ⟨⟨?_, ?_⟩, ?_, rfl, rfl⟩ <;>
    simp [parseTextures, mkState, getJsonArray, field, parseLoop, parseTexture,
      finishTexture, finishArrayParse, mapAsset, returnErr, getObj, List.lookup,
      parseTextureExtensions, getImageIndexForExtension, hasBit, hjs, hje, hs]

/-- C5 witness: the spec scenario 5 (`source = 7`, basisu source 9, dds
source 3): `imageIndex = 9` with `fallbackImageIndex = 7`. -/
theorem parseTextures_state_machine_witness :
    (parseTextures (mkState [("textures", .jarr [.jobj
        [("source", .jnum 7 true),
         ("extensions", .jobj
           [("KHR_texture_basisu", .jobj [("source", .jnum 9 true)]),
            ("MSFT_texture_dds", .jobj [("source", .jnum 3 true)])])]])]
        ⟨true, false, true⟩ noOptions none)).2.parsedAsset
      = some { textures := [{ imageIndex := 9, fallbackImageIndex := some 7 }] } :=
  (parseTextures_state_machine (.jnum 7 true) (.jnum 9 true)
    (.jobj [("source", .jnum 3 true)]) 7 9 (by decide) (by decide) (by decide)).1.2

/-- C6 counterexample: with `KHR_texture_transform` enabled, a transform
object whose `texCoord` is the string `"oops"` — present but not an integer
— does not make parseTextureObject fail: it returns success (`Error.None`),
ignoring the malformed entry and keeping the outer `texCoord`. -/
theorem parseTextureObject_malformed_texCoord_accepted :
    (parseTextureObject ⟨false, true, false⟩
        [("tex", .jobj [("index", .jnum 5 true), ("texCoord", .jnum 1 true),
           ("extensions", .jobj [("KHR_texture_transform",
             .jobj [("texCoord", .jstr "oops")])])])]
        "tex" {}).1 = Error.None := by
  rfl

/-- C6 amended: with `KHR_texture_transform` enabled and a transform object
present: (i) a `texCoord` inside it that reads as a u64 overrides the outer
`texCoord`; (ii) with no inner `texCoord` the outer one stands; (iii) an
inner `texCoord` that is not an integer, a `rotation` that is not a number,
and an `offset` or `scale` that is not an array are all silently ignored,
the defaults (outer texCoord, rotation 0) being kept; (iv)/(v) only an
`offset` or `scale` that is present as an array fails with `InvalidGltf`,
namely when its first two elements are not both numbers. -/
theorem parseTextureObject_transform_rules (jt jo : Json) (t o : Nat)
    (hjt : getUint64 jt = some t) (hjo : getUint64 jo = some o) :
    (parseTextureObject ⟨false, true, false⟩
        [("tex", .jobj [("index", .jnum 5 true), ("texCoord", jo),
           ("extensions", .jobj [("KHR_texture_transform", .jobj [("texCoord", jt)])])])]
        "tex" {} = (Error.None, { textureIndex := 5, texCoordIndex := t })) ∧
    (parseTextureObject ⟨false, true, false⟩
        [("tex", .jobj [("index", .jnum 5 true), ("texCoord", jo),
           ("extensions", .jobj [("KHR_texture_transform", .jobj [])])])]
        "tex" {} = (Error.None, { textureIndex := 5, texCoordIndex := o })) ∧
    (parseTextureObject ⟨false, true, false⟩
        [("tex", .jobj [("index", .jnum 5 true), ("texCoord", jo),
           ("extensions", .jobj [("KHR_texture_transform",
             .jobj [("texCoord", .jstr "x"), ("rotation", .jstr "y"),
                    ("offset", .jnum 1 true), ("scale", .jbool true)])])])]
        "tex" {} = (Error.None, { textureIndex := 5, texCoordIndex := o })) ∧
    ((parseTextureObject ⟨false, true, false⟩
        [("tex", .jobj [("index", .jnum 5 true),
           ("extensions", .jobj [("KHR_texture_transform",
             .jobj [("offset", .jarr [.jnum 1 false])])])])]
        "tex" {}).1 = Error.InvalidGltf) ∧
    ((parseTextureObject ⟨false, true, false⟩
        [("tex", .jobj [("index", .jnum 5 true),
           ("extensions", .jobj [("KHR_texture_transform",
             .jobj [("scale", .jarr [.jstr "x", .jnum 1 false])])])])]
        "tex" {}).1 = Error.InvalidGltf) := by
  have h5 : getUint64 (.jnum 5 true) = some 5 := rfl
  have hx : getUint64 (.jstr "x") = none := rfl
  refine ⟨?_, ?_, ?_, rfl, rfl⟩ <;>
    simp [parseTextureObject, field, getObj, hasBit, texObjScalePart, fillFloatPair,
      List.lookup, getDouble, h5, hx, hjt, hjo]

/-- C6 amended witness: inner texCoord 4 overrides outer texCoord 1. -/
theorem parseTextureObject_transform_rules_witness :
    parseTextureObject ⟨false, true, false⟩
        [("tex", .jobj [("index", .jnum 5 true), ("texCoord", .jnum 1 true),
           ("extensions", .jobj [("KHR_texture_transform", .jobj [("texCoord", .jnum 4 true)])])])]
        "tex" {} = (Error.None, { textureIndex := 5, texCoordIndex := 4 }) :=
  (parseTextureObject_transform_rules (.jnum 4 true) (.jnum 1 true) 4 1
    (by decide) (by decide)).1

/-- Element parsers of the object-array loops only ever fail with a real
error: parseAccessor. -/
theorem parseAccessor_error_ne (opts : Options) (v : Json) (e : Error)
    (h : parseAccessor opts v = .error e) : e ≠ Error.None := by
  unfold parseAccessor at h
  repeat' first
    | split at h
    | (simp only [] at h)
  all_goals try simp only [ite_self, Except.error.injEq] at h
  all_goals first
    | exact Except.noConfusion h
    | (subst h; first | decide | assumption)

/-- Element parsers only fail with a real error: parseBuffer. -/
theorem parseBuffer_error_ne (opts : Options) (dir : List Char) (glb : Option GLBBuffer)
    (idx : Nat) (v : Json) (e : Error) (h : parseBuffer opts dir glb idx v = .error e) :
    e ≠ Error.None := by
  unfold parseBuffer finishBuffer at h
  repeat' first
    | split at h
    | (simp only [] at h)
  all_goals try simp only [ite_self, Except.error.injEq] at h
  all_goals first
    | exact Except.noConfusion h
    | (subst h; first | decide | assumption)

/-- Element parsers only fail with a real error: parseNode. -/
theorem parseNode_error_ne (v : Json) (e : Error) (h : parseNode v = .error e) :
    e ≠ Error.None := by
  unfold parseNode at h
  repeat' first
    | split at h
    | (simp only [] at h)
  all_goals try simp only [ite_self, Except.error.injEq] at h
  all_goals first
    | exact Except.noConfusion h
    | (subst h; first | decide | assumption)

/-- Element parsers only fail with a real error: parseScene. -/
theorem parseScene_error_ne (v : Json) (e : Error) (h : parseScene v = .error e) :
    e ≠ Error.None := by
  unfold parseScene at h
  repeat' first
    | split at h
    | (simp only [] at h)
  all_goals try simp only [ite_self, Except.error.injEq] at h
  all_goals first
    | exact Except.noConfusion h
    | (subst h; first | decide | assumption)

/-- Element parsers only fail with a real error: parseTexture. -/
theorem parseTexture_error_ne (exts : Extensions) (v : Json) (e : Error)
    (h : parseTexture exts v = .error e) : e ≠ Error.None := by
  unfold parseTexture finishTexture at h
  repeat' first
    | split at h
    | (simp only [] at h)
  all_goals try simp only [ite_self, Except.error.injEq] at h
  all_goals first
    | exact Except.noConfusion h
    | (subst h; first | decide | assumption)

/-- A loop over element parsers that only fail with real errors reports
only real errors. -/
theorem parseLoop_error_ne {α : Type} {p : Json → Except Error α}
    (hp : ∀ v e, p v = .error e → e ≠ Error.None) :
    ∀ xs e, (parseLoop p xs).2 = some e → e ≠ Error.None := by
  intro xs
  induction xs with
  | nil => intro e h; simp [parseLoop] at h
  | cons v rest ih =>
    intro e h
    simp only [parseLoop] at h
    cases hv : p v with
    | error e1 =>
      rw [hv] at h
      simp at h
      exact h ▸ hp v e1 hv
    | ok x =>
      rw [hv] at h
      simp at h
      exact ih e h

/-- The indexed buffer loop reports only real errors. -/
theorem buffersLoop_error_ne (opts : Options) (dir : List Char) (glb : Option GLBBuffer) :
    ∀ xs idx e, (buffersLoop opts dir glb xs idx).2 = some e → e ≠ Error.None := by
  intro xs
  induction xs with
  | nil => intro idx e h; simp [buffersLoop] at h
  | cons v rest ih =>
    intro idx e h
    simp only [buffersLoop] at h
    cases hv : parseBuffer opts dir glb idx v with
    | error e1 =>
      rw [hv] at h
      simp at h
      exact h ▸ parseBuffer_error_ne opts dir glb idx v e1 hv
    | ok x =>
      rw [hv] at h
      simp at h
      exact ih (idx + 1) e h

/-- The shared parser tail never clears a stored error: it either keeps the
previous `errorCode` or stores the loop's (real) error. -/
theorem finishArrayParse_error_stays {α : Type} (g : GlTFState) (r : List α × Option Error)
    (upd : Asset → List α → Asset)
    (hr : ∀ e, r.2 = some e → e ≠ Error.None)
    (h : g.errorCode ≠ Error.None) :
    (finishArrayParse g r upd).2.errorCode ≠ Error.None := by
  unfold finishArrayParse
  cases hre : r.2 with
  | none => simpa [mapAsset] using h
  | some err =>
    have := hr err hre
    simpa [returnErr, mapAsset] using this

/-- C4 concrete document: a malformed accessors array (its element is a
number, not an object), a well-formed node (empty `children` array present)
and a scene with no `nodes` field. -/
def c4Root : List (String × Json) :=
  [("accessors", .jarr [.jnum 0 true]),
   ("nodes", .jarr [.jobj [("children", .jarr [])]]),
   ("scenes", .jarr [.jobj []])]

/-- C4: the fresh handle over `c4Root`. -/
def c4g0 : GlTFState := mkState c4Root noExtensions noOptions none

/-- C4: the handle after the failing parseAccessors call. -/
def c4g1 : GlTFState := (parseAccessors c4g0).2

/-- C4 counterexample: after parseAccessors records `InvalidGltf` on the
handle, a subsequent parseNodes call is not short-circuited — it runs and
appends a node to the asset (0 nodes before, 1 after) — and a subsequent
parseScenes call overwrites the stored error with its own `MissingField`,
so the error finally surfaced is the last one, not the first. -/
theorem sticky_error_counterexample :
    (parseAccessors c4g0).1 = Error.InvalidGltf ∧
    c4g1.errorCode = Error.InvalidGltf ∧
    c4g1.parsedAsset.map (fun a => a.nodes.length) = some 0 ∧
    (parseNodes c4g1).2.parsedAsset.map (fun a => a.nodes.length) = some 1 ∧
    (parseScenes c4g1).2.errorCode = Error.MissingField := by
  refine ⟨rfl, rfl, rfl, rfl, rfl⟩

/-- C4 amended: once an error is recorded on the handle it is never
cleared: each of the modelled object-array parsers leaves the error code
non-`None` (either untouched or overwritten with another real error), and
`getParsedAsset` returns nothing.  Subsequent parses are, however, not
short-circuited (they may still append to the asset), and a later error
overwrites the stored code, so the error surfaced is the most recent one —
as the concrete handle `c4g1` of the counterexample exhibits. -/
theorem sticky_error_amended (g : GlTFState) (h : g.errorCode ≠ Error.None) :
    ((parseAccessors g).2.errorCode ≠ Error.None ∧
     (parseBuffers g).2.errorCode ≠ Error.None ∧
     (parseNodes g).2.errorCode ≠ Error.None ∧
     (parseScenes g).2.errorCode ≠ Error.None ∧
     (parseTextures g).2.errorCode ≠ Error.None ∧
     (getParsedAsset g).1 = none) ∧
    (parseNodes c4g1).2.parsedAsset ≠ c4g1.parsedAsset ∧
    (parseScenes c4g1).2.errorCode ≠ (parseAccessors c4g0).1 := by
  refine ⟨⟨?_, ?_, ?_, ?_, ?_, ?_⟩, by decide, by decide⟩
  · unfold parseAccessors
    split
    · exact h
    · simp [returnErr]
    · exact finishArrayParse_error_stays _ _ _
        (parseLoop_error_ne (parseAccessor_error_ne _) _) h
  · unfold parseBuffers
    split
    · exact h
    · simp [returnErr]
    · exact finishArrayParse_error_stays _ _ _
        (buffersLoop_error_ne _ _ _ _ 0) h
  · unfold parseNodes
    split
    · exact h
    · simp [returnErr]
    · exact finishArrayParse_error_stays _ _ _
        (parseLoop_error_ne parseNode_error_ne _) h
  · unfold parseScenes
    split
    · exact h
    · simp [returnErr]
    · split
      · exact finishArrayParse_error_stays _ _ _
          (parseLoop_error_ne parseScene_error_ne _) h
      · exact finishArrayParse_error_stays _ _ _
          (parseLoop_error_ne parseScene_error_ne _) h
  · unfold parseTextures
    split
    · exact h
    · simp [returnErr]
    · exact finishArrayParse_error_stays _ _ _
        (parseLoop_error_ne (parseTexture_error_ne _) _) h
  · simp [getParsedAsset, h]

/-- C4 amended witness: the counterexample handle `c4g1` itself carries a
stored error, so every later parse keeps a non-`None` error and
`getParsedAsset` yields nothing. -/
theorem sticky_error_amended_witness :
    c4g1.errorCode ≠ Error.None ∧
    ((parseAccessors c4g1).2.errorCode ≠ Error.None ∧
     (parseBuffers c4g1).2.errorCode ≠ Error.None ∧
     (parseNodes c4g1).2.errorCode ≠ Error.None ∧
     (parseScenes c4g1).2.errorCode ≠ Error.None ∧
     (parseTextures c4g1).2.errorCode ≠ Error.None ∧
     (getParsedAsset c4g1).1 = none) :=
  ⟨by decide, (sticky_error_amended c4g1 (by decide)).1⟩

end Fastgltf

